import Mathlib

/-!
Shallow embedding of `lib/mayaUsd/ufe/UsdConnectionHandler.cpp` from the
maya-usd repository.

The file under verification is a connection-editing adapter: it coerces
generic UFE attribute handles into USD-typed attribute handles and mutates
connection state through the UsdShade connectable API.  The adapter code
itself (coercion, membership test, branch structure of createConnection and
deleteConnection) is translated directly from the source.  The external
collaborators it calls (UsdShade socket creation, ConnectToSource,
DisconnectSource, UsdShadeUtils name parsing, the Sdr shader registry, the
material terminal-output creation) are not part of this repository; they are
modelled from the specification of their contracts, with USD naming
conventions for attribute and socket paths.
-/

namespace UsdConnection

/-- Direction of a shading attribute, as decoded from its namespace tag.
Mirrors UsdShadeAttributeType: Input, Output, or Invalid when the name
carries neither namespace tag. -/
inductive ShadeAttrType where
  | Input
  | Output
  | Invalid
deriving DecidableEq, Repr

/-- Diagnostics reported through the process-wide diagnostic channel
(TF_RUNTIME_ERROR in the source). -/
inductive Diag where
  | invalidAttr
  | invalidRuntime (name itemPath : String)
  | unresolvedShader (id itemPath : String)
deriving DecidableEq, Repr

/-- A prim (node) of the scene description, with the facts about it that the
adapter consults: its path, whether it is recognized as a material, and the
stored shader identifier (the value of its id attribute, empty when unset). -/
structure Prim where
  path : String
  isMaterial : Bool
  shaderId : String
deriving DecidableEq, Repr

/-- A UFE attribute reference as the adapter sees it: the runtime tag of its
scene item, whether its dynamic type is the USD typed-attribute class (so
that the dynamic cast in the source succeeds), its qualified name, its owning
prim, its USD value type name, and the scene-item path used in diagnostics. -/
structure UfeAttr where
  runTimeId : Nat
  isUsdAttr : Bool
  name : String
  prim : Prim
  typeName : String
  itemPath : String
deriving DecidableEq, Repr

/-- Path of the underlying USD attribute: prim path, a dot, and the
attribute name. -/
def UfeAttr.attrPath (a : UfeAttr) : String :=
  a.prim.path ++ "." ++ a.name

/-- A socket (attribute created through the connectable API) in the
document: owning prim path, full attribute name, value type name. -/
structure Socket where
  primPath : String
  name : String
  typeName : String
deriving DecidableEq, Repr

/-- Path of a socket: prim path, a dot, and the socket name. -/
def Socket.path (s : Socket) : String :=
  s.primPath ++ "." ++ s.name

/-- The scene-description document state the adapter mutates: the sockets
that exist and, per destination attribute path, the ordered list of upstream
source attribute paths recorded on it. -/
structure Doc where
  sockets : List Socket
  connections : List (String × List String)
deriving DecidableEq, Repr

/-- The empty document. -/
def Doc.empty : Doc := ⟨[], []⟩

/-- The upstream connection paths currently recorded on a destination
attribute path (UsdAttribute::GetConnections). -/
def getConnections (doc : Doc) (dst : String) : List String :=
  match doc.connections.find? (fun p => p.1 == dst) with
  | some p => p.2
  | none => []

/-- Replace the recorded upstream list of a destination attribute path. -/
def setConnections (doc : Doc) (dst : String) (srcs : List String) : Doc :=
  { doc with connections := (dst, srcs) :: doc.connections.filter (fun p => p.1 != dst) }

/-- Modelled from the spec: socket creation through the connectable API
(CreateInput / CreateOutput / the material terminal-output creation).  It
ensures the socket exists, creating it if absent; it never removes anything. -/
def createSocket (doc : Doc) (s : Socket) : Doc :=
  if s ∈ doc.sockets then doc else { doc with sockets := doc.sockets ++ [s] }

/-- The environment of external collaborators: the shader-node definition
registry and the success verdicts of the underlying connect and disconnect
primitives (UnderlyingConnectFailure is propagated as-is). -/
structure ShaderNodeDef where
  sourceType : String
deriving DecidableEq, Repr

/-- The shader-node registry: identifier to shader definition. -/
structure Registry where
  defs : List (String × ShaderNodeDef)

/-- Modelled from the spec: registry lookup by stored identifier
(SdrRegistry::GetShaderNodeByIdentifier); a miss returns none. -/
def Registry.getShaderNodeByIdentifier (r : Registry) (id : String) : Option ShaderNodeDef :=
  (r.defs.find? (fun p => p.1 == id)).map (fun p => p.2)

structure Env where
  registry : Registry
  connectOk : String → String → Bool
  disconnectOk : String → String → Bool

/-- Modelled from the spec: UsdShadeConnectableAPI::ConnectToSource sets the
upstream of the destination socket to the given source socket and reports the
underlying success verdict; on failure nothing is recorded. -/
def connectToSource (env : Env) (doc : Doc) (dstPath srcPath : String) : Bool × Doc :=
  if env.connectOk dstPath srcPath then
    (true, setConnections doc dstPath [srcPath])
  else
    (false, doc)

/-- Modelled from the spec: UsdShadeConnectableAPI::DisconnectSource removes
the source from the upstream list of the destination attribute and reports
the underlying success verdict; on failure nothing is removed. -/
def disconnectSource (env : Env) (doc : Doc) (dstPath srcPath : String) : Bool × Doc :=
  if env.disconnectOk dstPath srcPath then
    (true, setConnections doc dstPath ((getConnections doc dstPath).filter (fun p => p != srcPath)))
  else
    (false, doc)

/-- The USD runtime identifier this handler understands (assigned at plugin
registration; only comparisons against it matter here). -/
def getUsdRunTimeId : Nat := 2

/-- The universal render context token of UsdShadeTokens (the empty token). -/
def universalRenderContext : String := ""

/-- Reserved terminal base name. -/
def surfaceTok : String := "surface"

/-- Reserved terminal base name. -/
def volumeTok : String := "volume"

/-- Reserved terminal base name. -/
def displacementTok : String := "displacement"

/-- Value type of a material terminal output. -/
def tokenTypeName : String := "token"

/-- Full name of an input socket with the given base name. -/
def inputName (base : String) : String := "inputs:" ++ base

/-- Full name of an output socket with the given base name. -/
def outputName (base : String) : String := "outputs:" ++ base

/-- Modelled from the spec: UsdShadeUtils::GetBaseNameAndType decodes a
qualified attribute name by the namespace tag convention: an inputs: tag
yields Input, an outputs: tag yields Output, anything else is Invalid with
the name passed through whole. -/
def getBaseNameAndType (name : String) : String × ShadeAttrType :=
  if name.data.take 7 = "inputs:".data then
    (String.mk (name.data.drop 7), ShadeAttrType.Input)
  else if name.data.take 8 = "outputs:".data then
    (String.mk (name.data.drop 8), ShadeAttrType.Output)
  else
    (name, ShadeAttrType.Invalid)

/-- Coercion of a UFE attribute reference to a USD attribute handle
(usdAttrFromUfeAttr in the source): null references and references whose
scene item carries a foreign runtime tag are rejected with a diagnostic; the
remaining references go through a dynamic cast that yields the same handle
when the dynamic type matches and null (with no diagnostic) otherwise. -/
def usdAttrFromUfeAttr (attr : Option UfeAttr) : Option UfeAttr × List Diag :=
  match attr with
  | none => (none, [Diag.invalidAttr])
  | some a =>
    if a.runTimeId ≠ getUsdRunTimeId then
      (none, [Diag.invalidRuntime a.name a.itemPath])
    else if a.isUsdAttr then
      (some a, [])
    else
      (none, [])

/-- Membership test (isConnected in the source): query the upstream paths
recorded on the destination attribute and report whether the source
attribute path appears among them.  Pure: it reads the document and returns
a Boolean, mutating nothing. -/
def isConnected (doc : Doc) (src dst : UfeAttr) : Bool :=
  (getConnections doc dst.attrPath).any (fun p => p == src.attrPath)

/-- Whether the destination base name is one of the reserved material
terminal names. -/
def isTerminalBase (base : String) : Bool :=
  base == surfaceTok || base == volumeTok || base == displacementTok

/-- The render context derived from a shader definition source type: the
legacy glslfx source type maps to the universal render context, all others
pass through unchanged. -/
def renderContextFor (sourceType : String) : String :=
  if sourceType = "glslfx" then universalRenderContext else sourceType

/-- Full name of the material terminal output created for a render context:
the universal context leaves the terminal name unqualified, any other
context qualifies it. -/
def terminalOutputName (renderContext base : String) : String :=
  if renderContext = universalRenderContext then outputName base
  else outputName (renderContext ++ ":" ++ base)

/-- Body of createConnection after both coercions succeeded: precondition
check on current membership, then socket materialization and connection per
the (source direction, destination direction) combination, translated branch
for branch from the source. -/
def createConnectionCore (env : Env) (doc : Doc) (src dst : UfeAttr) (diags : List Diag) :
    Bool × Doc × List Diag :=
  if isConnected doc src dst then (false, doc, diags)
  else
    let srcBaseName := (getBaseNameAndType src.name).1
    let srcAttrType := (getBaseNameAndType src.name).2
    let dstBaseName := (getBaseNameAndType dst.name).1
    let dstAttrType := (getBaseNameAndType dst.name).2
    if srcAttrType = ShadeAttrType.Input then
      let doc1 := createSocket doc (Socket.mk src.prim.path (inputName srcBaseName) src.typeName)
      let srcPath := src.prim.path ++ "." ++ inputName srcBaseName
      if dstAttrType = ShadeAttrType.Input then
        let doc2 := createSocket doc1 (Socket.mk dst.prim.path (inputName dstBaseName) dst.typeName)
        let r := connectToSource env doc2 (dst.prim.path ++ "." ++ inputName dstBaseName) srcPath
        (r.1, r.2, diags)
      else
        let doc2 := createSocket doc1 (Socket.mk dst.prim.path (outputName dstBaseName) dst.typeName)
        let r := connectToSource env doc2 (dst.prim.path ++ "." ++ outputName dstBaseName) srcPath
        (r.1, r.2, diags)
    else
      let doc1 := createSocket doc (Socket.mk src.prim.path (outputName srcBaseName) src.typeName)
      let srcPath := src.prim.path ++ "." ++ outputName srcBaseName
      if dstAttrType = ShadeAttrType.Input then
        let doc2 := createSocket doc1 (Socket.mk dst.prim.path (inputName dstBaseName) dst.typeName)
        let r := connectToSource env doc2 (dst.prim.path ++ "." ++ inputName dstBaseName) srcPath
        (r.1, r.2, diags)
      else
        if dst.prim.isMaterial && isTerminalBase dstBaseName then
          match env.registry.getShaderNodeByIdentifier src.prim.shaderId with
          | none =>
            (false, doc1, diags ++ [Diag.unresolvedShader src.prim.shaderId src.itemPath])
          | some nodeDef =>
            let renderContext := renderContextFor nodeDef.sourceType
            let termName := terminalOutputName renderContext dstBaseName
            let doc2 := createSocket doc1 (Socket.mk dst.prim.path termName tokenTypeName)
            let r := connectToSource env doc2 (dst.prim.path ++ "." ++ termName) srcPath
            (r.1, r.2, diags)
        else
          let doc2 := createSocket doc1 (Socket.mk dst.prim.path (outputName dstBaseName) dst.typeName)
          let r := connectToSource env doc2 (dst.prim.path ++ "." ++ outputName dstBaseName) srcPath
          (r.1, r.2, diags)

/-- UsdConnectionHandler::createConnection: coerce both references, fail with
no mutation when either coercion fails or the pair is already connected,
otherwise materialize sockets and connect.  The result carries the success
Boolean, the resulting document, and the diagnostics reported. -/
def createConnection (env : Env) (doc : Doc) (srcAttr dstAttr : Option UfeAttr) :
    Bool × Doc × List Diag :=
  match usdAttrFromUfeAttr srcAttr, usdAttrFromUfeAttr dstAttr with
  | (some src, d1), (some dst, d2) => createConnectionCore env doc src dst (d1 ++ d2)
  | (_, d1), (_, d2) => (false, doc, d1 ++ d2)

/-- UsdConnectionHandler::deleteConnection: coerce both references, fail with
no mutation when either coercion fails or the pair is not currently
connected, otherwise disconnect the source from the destination and return
the verdict of the underlying disconnect. -/
def deleteConnection (env : Env) (doc : Doc) (srcAttr dstAttr : Option UfeAttr) :
    Bool × Doc × List Diag :=
  match usdAttrFromUfeAttr srcAttr, usdAttrFromUfeAttr dstAttr with
  | (some src, d1), (some dst, d2) =>
    if isConnected doc src dst then
      let r := disconnectSource env doc dst.attrPath src.attrPath
      (r.1, r.2, d1 ++ d2)
    else
      (false, doc, d1 ++ d2)
  | (_, d1), (_, d2) => (false, doc, d1 ++ d2)

/-- Per-case socket paths of the single connect-to-source call that
createConnection performs once its preconditions pass: the destination and
source socket paths for the (source direction, destination direction)
combination, following the branch structure of the source; none when the
terminal-branch registry lookup misses (no connect is reached there). -/
def connectArgsFor (env : Env) (a b : UfeAttr) : Option (String × String) :=
  let srcBaseName := (getBaseNameAndType a.name).1
  let srcAttrType := (getBaseNameAndType a.name).2
  let dstBaseName := (getBaseNameAndType b.name).1
  let dstAttrType := (getBaseNameAndType b.name).2
  if srcAttrType = ShadeAttrType.Input then
    let srcPath := a.prim.path ++ "." ++ inputName srcBaseName
    if dstAttrType = ShadeAttrType.Input then
      some (b.prim.path ++ "." ++ inputName dstBaseName, srcPath)
    else
      some (b.prim.path ++ "." ++ outputName dstBaseName, srcPath)
  else
    let srcPath := a.prim.path ++ "." ++ outputName srcBaseName
    if dstAttrType = ShadeAttrType.Input then
      some (b.prim.path ++ "." ++ inputName dstBaseName, srcPath)
    else
      if b.prim.isMaterial && isTerminalBase dstBaseName then
        match env.registry.getShaderNodeByIdentifier a.prim.shaderId with
        | none => none
        | some nodeDef =>
          some (b.prim.path ++ "." ++ terminalOutputName (renderContextFor nodeDef.sourceType)
            dstBaseName, srcPath)
      else
        some (b.prim.path ++ "." ++ outputName dstBaseName, srcPath)

/-- Concrete environment: a registry resolving sh1 to source type mdl;
the underlying connect and disconnect primitives succeed. -/
def envMdl : Env := ⟨⟨[("sh1", ⟨"mdl"⟩)]⟩, fun _ _ => true, fun _ _ => true⟩

/-- Concrete environment: a registry resolving sh1 to the legacy glslfx
source type. -/
def envGlslfx : Env := ⟨⟨[("sh1", ⟨"glslfx"⟩)]⟩, fun _ _ => true, fun _ _ => true⟩

/-- Concrete environment with an empty shader registry. -/
def envEmptyReg : Env := ⟨⟨[]⟩, fun _ _ => true, fun _ _ => true⟩

/-- A shader prim whose stored identifier is sh1. -/
def shaderPrim : Prim := ⟨"/S", false, "sh1"⟩

/-- A material prim. -/
def materialPrim : Prim := ⟨"/M", true, ""⟩

/-- The surface output of the shader prim, as a valid USD-runtime
reference. -/
def srcSurfaceAttr : UfeAttr := ⟨getUsdRunTimeId, true, "outputs:surface", shaderPrim, "token", "/S1"⟩

/-- The surface terminal of the material prim, as a valid USD-runtime
reference. -/
def dstSurfaceAttr : UfeAttr := ⟨getUsdRunTimeId, true, "outputs:surface", materialPrim, "token", "/M1"⟩

/-- A plain float output on the shader prim. -/
def srcStdAttr : UfeAttr := ⟨getUsdRunTimeId, true, "outputs:result", shaderPrim, "float", "/S1"⟩

/-- A plain float input on the material prim. -/
def dstStdAttr : UfeAttr := ⟨getUsdRunTimeId, true, "inputs:value", materialPrim, "float", "/M1"⟩

/-- A reference with the matching USD runtime tag whose dynamic type is not
the USD typed-attribute class: the dynamic cast fails on it. -/
def castFailAttr : UfeAttr := ⟨getUsdRunTimeId, false, "inputs:x", shaderPrim, "float", "/S1"⟩

/-- A reference tagged with a foreign runtime identifier. -/
def foreignAttr : UfeAttr := ⟨getUsdRunTimeId + 1, true, "inputs:x", shaderPrim, "float", "/S1"⟩

end UsdConnection

namespace UsdConnection

/-- The socket name that createConnection materializes for an attribute:
an input socket when the decoded direction is Input, an output socket
otherwise (the terminal case with the universal render context also lands
on this name). -/
def socketNameOf (a : UfeAttr) : String :=
  match (getBaseNameAndType a.name).2 with
  | ShadeAttrType.Input => inputName (getBaseNameAndType a.name).1
  | _ => outputName (getBaseNameAndType a.name).1

lemma getConnections_setConnections_self (doc : Doc) (dst : String) (l : List String) :
    getConnections (setConnections doc dst l) dst = l := by
  simp [getConnections, setConnections, List.find?]

lemma connections_createSocket (doc : Doc) (s : Socket) :
    (createSocket doc s).connections = doc.connections := by
  unfold createSocket
  split <;> rfl

lemma usdAttrFromUfeAttr_ok (a : UfeAttr) (h1 : a.runTimeId = getUsdRunTimeId)
    (h2 : a.isUsdAttr = true) : usdAttrFromUfeAttr (some a) = (some a, []) := by
  simp [usdAttrFromUfeAttr, h1, h2]

lemma usdAttrFromUfeAttr_some_eq {x : Option UfeAttr} {a : UfeAttr} {d : List Diag}
    (h : usdAttrFromUfeAttr x = (some a, d)) : x = some a := by
  cases x with
  | none => simp [usdAttrFromUfeAttr] at h
  | some y =>
    simp only [usdAttrFromUfeAttr] at h
    by_cases h1 : y.runTimeId ≠ getUsdRunTimeId
    · rw [if_pos h1] at h
      simp at h
    · rw [if_neg h1] at h
      by_cases h2 : y.isUsdAttr = true
      · rw [if_pos h2] at h
        exact congrArg Prod.fst h
      · rw [if_neg h2] at h
        simp at h

lemma createConnection_already (env : Env) (doc : Doc) (a b : UfeAttr)
    (hc : isConnected doc a b = true) :
    (createConnection env doc (some a) (some b)).1 = false ∧
    (createConnection env doc (some a) (some b)).2.1 = doc := by
  unfold createConnection
  rcases h1 : usdAttrFromUfeAttr (some a) with ⟨_ | sa, d1⟩ <;>
    rcases h2 : usdAttrFromUfeAttr (some b) with ⟨_ | sb, d2⟩ <;> simp
  have ha : sa = a := by
    have := usdAttrFromUfeAttr_some_eq h1
    exact (Option.some.inj this).symm
  have hb : sb = b := by
    have := usdAttrFromUfeAttr_some_eq h2
    exact (Option.some.inj this).symm
  subst ha hb
  simp [createConnectionCore, hc]

lemma deleteConnection_notConnected (env : Env) (doc : Doc) (a b : UfeAttr)
    (hc : isConnected doc a b = false) :
    (deleteConnection env doc (some a) (some b)).1 = false ∧
    (deleteConnection env doc (some a) (some b)).2.1 = doc := by
  unfold deleteConnection
  rcases h1 : usdAttrFromUfeAttr (some a) with ⟨_ | sa, d1⟩ <;>
    rcases h2 : usdAttrFromUfeAttr (some b) with ⟨_ | sb, d2⟩ <;> simp
  have ha : sa = a := by
    have := usdAttrFromUfeAttr_some_eq h1
    exact (Option.some.inj this).symm
  have hb : sb = b := by
    have := usdAttrFromUfeAttr_some_eq h2
    exact (Option.some.inj this).symm
  subst ha hb
  simp [hc]

end UsdConnection

namespace UsdConnection

lemma outputName_ne_self (s : String) : outputName s ≠ s := by
  intro h
  have hlen := congrArg String.length h
  rw [outputName, String.length_append] at hlen
  have h8 : ("outputs:" : String).length = 8 := rfl
  omega

lemma connect_step (env : Env) (doc2 : Doc) (P Q : String) (a b : UfeAttr)
    (hbp : P = b.attrPath) (hap : Q = a.attrPath)
    (hT : (connectToSource env doc2 P Q).1 = true) :
    isConnected (connectToSource env doc2 P Q).2 a b = true := by
  subst hbp
  subst hap
  unfold connectToSource at hT ⊢
  by_cases hk : env.connectOk b.attrPath a.attrPath = true
  · rw [if_pos hk]
    simp [isConnected, getConnections_setConnections_self]
  · rw [if_neg hk] at hT
    simp at hT

lemma getBaseNameAndType_invalid_fst (name : String)
    (h : (getBaseNameAndType name).2 = ShadeAttrType.Invalid) :
    (getBaseNameAndType name).1 = name := by
  unfold getBaseNameAndType at h ⊢
  by_cases h1 : name.data.take 7 = "inputs:".data
  · rw [if_pos h1] at h
    simp at h
  · rw [if_neg h1] at h ⊢
    by_cases h2 : name.data.take 8 = "outputs:".data
    · rw [if_pos h2] at h
      simp at h
    · rw [if_neg h2]

lemma createConnectionCore_true_connected (env : Env) (doc : Doc) (a b : UfeAttr)
    (diags : List Diag)
    (hA : socketNameOf a = a.name) (hB : socketNameOf b = b.name)
    (hCtx : (getBaseNameAndType a.name).2 = ShadeAttrType.Output →
      (getBaseNameAndType b.name).2 = ShadeAttrType.Output →
      (b.prim.isMaterial && isTerminalBase (getBaseNameAndType b.name).1) = true →
      ∀ d, env.registry.getShaderNodeByIdentifier a.prim.shaderId = some d →
      renderContextFor d.sourceType = universalRenderContext)
    (hT : (createConnectionCore env doc a b diags).1 = true) :
    isConnected (createConnectionCore env doc a b diags).2.1 a b = true := by
  by_cases hc : isConnected doc a b = true
  · simp [createConnectionCore, hc] at hT
  · rcases hSa : (getBaseNameAndType a.name).2 with _ | _ | _
    · have hsa1 : socketNameOf a = inputName (getBaseNameAndType a.name).1 := by
        rw [socketNameOf, hSa]
      have hap : a.prim.path ++ "." ++ inputName (getBaseNameAndType a.name).1 = a.attrPath := by
        rw [UfeAttr.attrPath, ← hsa1, hA]
      rcases hSd : (getBaseNameAndType b.name).2 with _ | _ | _
      · have hsb1 : socketNameOf b = inputName (getBaseNameAndType b.name).1 := by
          rw [socketNameOf, hSd]
        have hbp : b.prim.path ++ "." ++ inputName (getBaseNameAndType b.name).1 = b.attrPath := by
          rw [UfeAttr.attrPath, ← hsb1, hB]
        simp only [createConnectionCore, hc, hSa, hSd, reduceIte] at hT ⊢
        exact connect_step env _ _ _ a b hbp hap hT
      · have hsb1 : socketNameOf b = outputName (getBaseNameAndType b.name).1 := by
          rw [socketNameOf, hSd]
        have hbp : b.prim.path ++ "." ++ outputName (getBaseNameAndType b.name).1 = b.attrPath := by
          rw [UfeAttr.attrPath, ← hsb1, hB]
        simp only [createConnectionCore, hc, hSa, hSd, reduceIte] at hT ⊢
        exact connect_step env _ _ _ a b hbp hap hT
      · have hsb1 : socketNameOf b = outputName b.name := by
          rw [socketNameOf, hSd, getBaseNameAndType_invalid_fst b.name hSd]
        rw [hsb1] at hB
        exact absurd hB (outputName_ne_self b.name)
    · have hsa1 : socketNameOf a = outputName (getBaseNameAndType a.name).1 := by
        rw [socketNameOf, hSa]
      have hap : a.prim.path ++ "." ++ outputName (getBaseNameAndType a.name).1 = a.attrPath := by
        rw [UfeAttr.attrPath, ← hsa1, hA]
      rcases hSd : (getBaseNameAndType b.name).2 with _ | _ | _
      · have hsb1 : socketNameOf b = inputName (getBaseNameAndType b.name).1 := by
          rw [socketNameOf, hSd]
        have hbp : b.prim.path ++ "." ++ inputName (getBaseNameAndType b.name).1 = b.attrPath := by
          rw [UfeAttr.attrPath, ← hsb1, hB]
        simp only [createConnectionCore, hc, hSa, hSd, reduceIte] at hT ⊢
        exact connect_step env _ _ _ a b hbp hap hT
      · have hsb1 : socketNameOf b = outputName (getBaseNameAndType b.name).1 := by
          rw [socketNameOf, hSd]
        have hbp : b.prim.path ++ "." ++ outputName (getBaseNameAndType b.name).1 = b.attrPath := by
          rw [UfeAttr.attrPath, ← hsb1, hB]
        by_cases hM : (b.prim.isMaterial && isTerminalBase (getBaseNameAndType b.name).1) = true
        · rcases hL : env.registry.getShaderNodeByIdentifier a.prim.shaderId with _ | d
          · simp only [createConnectionCore, hc, hSa, hSd, reduceIte, hM, hL] at hT
            simp at hT
          · have hctx := hCtx hSa hSd hM d hL
            have hterm : terminalOutputName (renderContextFor d.sourceType)
                ((getBaseNameAndType b.name).1) = outputName ((getBaseNameAndType b.name).1) := by
              rw [hctx, terminalOutputName, if_pos rfl]
            simp only [createConnectionCore, hc, hSa, hSd, reduceIte, hM, hL, hterm] at hT ⊢
            exact connect_step env _ _ _ a b hbp hap hT
        · simp only [createConnectionCore, hc, hSa, hSd, reduceIte, hM] at hT ⊢
          simp only [Bool.not_eq_true] at hM
          simp only [hM, Bool.false_eq_true, if_false] at hT ⊢
          exact connect_step env _ _ _ a b hbp hap hT
      · have hsb1 : socketNameOf b = outputName b.name := by
          rw [socketNameOf, hSd, getBaseNameAndType_invalid_fst b.name hSd]
        rw [hsb1] at hB
        exact absurd hB (outputName_ne_self b.name)
    · have hsa1 : socketNameOf a = outputName a.name := by
        rw [socketNameOf, hSa, getBaseNameAndType_invalid_fst a.name hSa]
      rw [hsa1] at hA
      exact absurd hA (outputName_ne_self a.name)

end UsdConnection

namespace UsdConnection

lemma connectToSource_fst (env : Env) (doc : Doc) (p q : String) :
    (connectToSource env doc p q).1 = env.connectOk p q := by
  unfold connectToSource
  by_cases hk : env.connectOk p q = true
  · rw [if_pos hk, hk]
  · rw [if_neg hk]
    simp only [Bool.not_eq_true] at hk
    rw [hk]

lemma any_filter_bne (l : List String) (x : String) :
    (l.filter (fun p => p != x)).any (fun p => p == x) = false := by
  induction l with
  | nil => rfl
  | cons h t ih =>
    rw [List.filter_cons]
    by_cases hx : h = x
    · simp only [hx, bne_self_eq_false, Bool.false_eq_true, if_false]
      exact ih
    · have hb : (h != x) = true := by simp [bne_iff_ne, hx]
      rw [if_pos hb, List.any_cons]
      have hbeq : (h == x) = false := by simp [hx]
      rw [hbeq, ih]
      rfl

lemma delete_true_disconnected (env : Env) (doc : Doc) (a b : UfeAttr)
    (hT : (deleteConnection env doc (some a) (some b)).1 = true) :
    isConnected (deleteConnection env doc (some a) (some b)).2.1 a b = false := by
  unfold deleteConnection at hT ⊢
  rcases h1 : usdAttrFromUfeAttr (some a) with ⟨_ | sa, d1⟩ <;>
    rcases h2 : usdAttrFromUfeAttr (some b) with ⟨_ | sb, d2⟩
  · rw [h1, h2] at hT
    simp at hT
  · rw [h1, h2] at hT
    simp at hT
  · rw [h1, h2] at hT
    simp at hT
  · rw [h2] at hT
    have ha : a = sa := Option.some.inj (usdAttrFromUfeAttr_some_eq h1)
    have hb : b = sb := Option.some.inj (usdAttrFromUfeAttr_some_eq h2)
    subst ha hb
    rw [h1] at hT
    dsimp only at hT ⊢
    by_cases hc : isConnected doc a b = true
    · rw [if_pos hc] at hT ⊢
      dsimp only at hT ⊢
      unfold disconnectSource at hT ⊢
      by_cases hk : env.disconnectOk b.attrPath a.attrPath = true
      · rw [if_pos hk]
        simp only [isConnected, getConnections_setConnections_self]
        exact any_filter_bne _ _
      · rw [if_neg hk] at hT
        simp at hT
    · rw [if_neg hc] at hT
      simp at hT

lemma createConnection_failedCoercion (env : Env) (doc : Doc) (x y : Option UfeAttr)
    (h : (usdAttrFromUfeAttr x).1 = none ∨ (usdAttrFromUfeAttr y).1 = none) :
    (createConnection env doc x y).1 = false ∧ (createConnection env doc x y).2.1 = doc := by
  unfold createConnection
  rcases h1 : usdAttrFromUfeAttr x with ⟨_ | sa, d1⟩ <;>
    rcases h2 : usdAttrFromUfeAttr y with ⟨_ | sb, d2⟩ <;> simp
  rcases h with h | h
  · rw [h1] at h
    simp at h
  · rw [h2] at h
    simp at h

lemma deleteConnection_failedCoercion (env : Env) (doc : Doc) (x y : Option UfeAttr)
    (h : (usdAttrFromUfeAttr x).1 = none ∨ (usdAttrFromUfeAttr y).1 = none) :
    (deleteConnection env doc x y).1 = false ∧ (deleteConnection env doc x y).2.1 = doc := by
  unfold deleteConnection
  rcases h1 : usdAttrFromUfeAttr x with ⟨_ | sa, d1⟩ <;>
    rcases h2 : usdAttrFromUfeAttr y with ⟨_ | sb, d2⟩ <;> simp
  · rcases h with h | h
    · rw [h1] at h
      simp at h
    · rw [h2] at h
      simp at h

lemma createConnection_true_connected (env : Env) (doc : Doc) (a b : UfeAttr)
    (hA : socketNameOf a = a.name) (hB : socketNameOf b = b.name)
    (hCtx : (getBaseNameAndType a.name).2 = ShadeAttrType.Output →
      (getBaseNameAndType b.name).2 = ShadeAttrType.Output →
      (b.prim.isMaterial && isTerminalBase (getBaseNameAndType b.name).1) = true →
      ∀ d, env.registry.getShaderNodeByIdentifier a.prim.shaderId = some d →
      renderContextFor d.sourceType = universalRenderContext)
    (hT : (createConnection env doc (some a) (some b)).1 = true) :
    isConnected (createConnection env doc (some a) (some b)).2.1 a b = true := by
  unfold createConnection at hT ⊢
  rcases h1 : usdAttrFromUfeAttr (some a) with ⟨_ | sa, d1⟩ <;>
    rcases h2 : usdAttrFromUfeAttr (some b) with ⟨_ | sb, d2⟩
  · rw [h1, h2] at hT
    simp at hT
  · rw [h1, h2] at hT
    simp at hT
  · rw [h1, h2] at hT
    simp at hT
  · rw [h2] at hT
    have ha : a = sa := Option.some.inj (usdAttrFromUfeAttr_some_eq h1)
    have hb : b = sb := Option.some.inj (usdAttrFromUfeAttr_some_eq h2)
    subst ha hb
    rw [h1] at hT
    dsimp only at hT ⊢
    exact createConnectionCore_true_connected env doc a b _ hA hB hCtx hT

end UsdConnection

namespace UsdConnection

/-- C1 (amended): if deleteConnection(a,b) returns true then isConnected(a,b)
is false immediately afterwards.  If createConnection(a,b) returns true then
isConnected(a,b) is true immediately afterwards provided the connection is
authored on the destination attribute itself: both attribute names carry
their inputs: or outputs: direction tag, and in the material-terminal branch
the resolved render context is the universal one.  (In the terminal branch
with a non-universal render context the connection is authored on the
context-qualified terminal output instead of the destination attribute, so
isConnected(a,b) stays false; see the counterexample.) -/
theorem c1_roundTrip (env : Env) (doc : Doc) (a b : UfeAttr) :
    (socketNameOf a = a.name → socketNameOf b = b.name →
      ((getBaseNameAndType a.name).2 = ShadeAttrType.Output →
        (getBaseNameAndType b.name).2 = ShadeAttrType.Output →
        (b.prim.isMaterial && isTerminalBase (getBaseNameAndType b.name).1) = true →
        ∀ d, env.registry.getShaderNodeByIdentifier a.prim.shaderId = some d →
        renderContextFor d.sourceType = universalRenderContext) →
      (createConnection env doc (some a) (some b)).1 = true →
      isConnected (createConnection env doc (some a) (some b)).2.1 a b = true) ∧
    ((deleteConnection env doc (some a) (some b)).1 = true →
      isConnected (deleteConnection env doc (some a) (some b)).2.1 a b = false) := by
  constructor
  · intro hA hB hCtx hT
    exact createConnection_true_connected env doc a b hA hB hCtx hT
  · intro hT
    exact delete_true_disconnected env doc a b hT

/-- C1 counterexample: with a registry resolving the source shader to source
type mdl, createConnection on the material surface terminal succeeds (the
connection is authored on the mdl-qualified terminal output), yet
isConnected on the original pair reports false immediately afterwards. -/
theorem c1_roundTrip_counterexample :
    (createConnection envMdl Doc.empty (some srcSurfaceAttr) (some dstSurfaceAttr)).1 = true ∧
    isConnected (createConnection envMdl Doc.empty (some srcSurfaceAttr) (some dstSurfaceAttr)).2.1
      srcSurfaceAttr dstSurfaceAttr = false := by
  decide

/-- C1 witness: the round trip holds at a concrete glslfx terminal
connection, where the render context resolves to the universal one. -/
theorem c1_roundTrip_witness :
    isConnected (createConnection envGlslfx Doc.empty (some srcSurfaceAttr) (some dstSurfaceAttr)).2.1
      srcSurfaceAttr dstSurfaceAttr = true :=
  (c1_roundTrip envGlslfx Doc.empty srcSurfaceAttr dstSurfaceAttr).1
    (by decide) (by decide)
    (by
      intro hsa hsd hm d hd
      have h0 : envGlslfx.registry.getShaderNodeByIdentifier srcSurfaceAttr.prim.shaderId
          = some (ShaderNodeDef.mk "glslfx") := by decide
      rw [h0] at hd
      rw [← Option.some.inj hd]
      decide)
    (by decide)

/-- C2: isConnected(a,b) is true exactly when the path of the source
attribute appears among the upstream connection paths currently recorded on
the destination attribute; the query is a pure read of the document (it is a
function of the document returning a Boolean and no document). -/
theorem c2_isConnected_iff (doc : Doc) (a b : UfeAttr) :
    isConnected doc a b = true ↔ a.attrPath ∈ getConnections doc b.attrPath := by
  simp [isConnected, List.any_eq_true]

/-- C3 (amended): if the pair is already connected when createConnection is
called, the call returns false and performs no mutation.  A second
consecutive createConnection after a successful first one returns false and
leaves the document unchanged provided the first call authored the
connection on the destination attribute itself (direction-tagged names, and
universal render context in the terminal branch); in the material-terminal
case with a non-universal render context the first call does not make
isConnected(a,b) true, so a second call repeats the work and returns true
again (see the counterexample). -/
theorem c3_createIdempotent (env : Env) (doc : Doc) (a b : UfeAttr) :
    (isConnected doc a b = true →
      (createConnection env doc (some a) (some b)).1 = false ∧
      (createConnection env doc (some a) (some b)).2.1 = doc) ∧
    (socketNameOf a = a.name → socketNameOf b = b.name →
      ((getBaseNameAndType a.name).2 = ShadeAttrType.Output →
        (getBaseNameAndType b.name).2 = ShadeAttrType.Output →
        (b.prim.isMaterial && isTerminalBase (getBaseNameAndType b.name).1) = true →
        ∀ d, env.registry.getShaderNodeByIdentifier a.prim.shaderId = some d →
        renderContextFor d.sourceType = universalRenderContext) →
      (createConnection env doc (some a) (some b)).1 = true →
      (createConnection env (createConnection env doc (some a) (some b)).2.1
          (some a) (some b)).1 = false ∧
      (createConnection env (createConnection env doc (some a) (some b)).2.1
          (some a) (some b)).2.1 = (createConnection env doc (some a) (some b)).2.1) := by
  constructor
  · intro hc
    exact createConnection_already env doc a b hc
  · intro hA hB hCtx hT
    exact createConnection_already env _ a b
      (createConnection_true_connected env doc a b hA hB hCtx hT)

/-- C3 counterexample: in the mdl terminal scenario the first call succeeds
but a second consecutive createConnection also returns true, not false as
the claim states. -/
theorem c3_createIdempotent_counterexample :
    (createConnection envMdl Doc.empty (some srcSurfaceAttr) (some dstSurfaceAttr)).1 = true ∧
    (createConnection envMdl
        (createConnection envMdl Doc.empty (some srcSurfaceAttr) (some dstSurfaceAttr)).2.1
        (some srcSurfaceAttr) (some dstSurfaceAttr)).1 = true := by
  decide

/-- C3 witness: at a concrete glslfx terminal connection the second
consecutive call returns false. -/
theorem c3_createIdempotent_witness :
    (createConnection envGlslfx
        (createConnection envGlslfx Doc.empty (some srcSurfaceAttr) (some dstSurfaceAttr)).2.1
        (some srcSurfaceAttr) (some dstSurfaceAttr)).1 = false :=
  ((c3_createIdempotent envGlslfx Doc.empty srcSurfaceAttr dstSurfaceAttr).2
    (by decide) (by decide)
    (by
      intro hsa hsd hm d hd
      have h0 : envGlslfx.registry.getShaderNodeByIdentifier srcSurfaceAttr.prim.shaderId
          = some (ShaderNodeDef.mk "glslfx") := by decide
      rw [h0] at hd
      rw [← Option.some.inj hd]
      decide)
    (by decide)).1

/-- C4: when the source path is not among the upstream connection paths of
the destination attribute, deleteConnection returns false and leaves the
document completely unchanged. -/
theorem c4_deleteNotConnected (env : Env) (doc : Doc) (a b : UfeAttr)
    (hc : isConnected doc a b = false) :
    (deleteConnection env doc (some a) (some b)).1 = false ∧
    (deleteConnection env doc (some a) (some b)).2.1 = doc :=
  deleteConnection_notConnected env doc a b hc

/-- C4 witness: deleting a nonexistent connection on the empty document
returns false and leaves it empty. -/
theorem c4_deleteNotConnected_witness :
    (deleteConnection envMdl Doc.empty (some srcStdAttr) (some dstStdAttr)).1 = false ∧
    (deleteConnection envMdl Doc.empty (some srcStdAttr) (some dstStdAttr)).2.1 = Doc.empty :=
  c4_deleteNotConnected envMdl Doc.empty srcStdAttr dstStdAttr (by decide)

end UsdConnection

namespace UsdConnection

lemma createConnection_eq_core (env : Env) (doc : Doc) (a b : UfeAttr)
    (h1 : a.runTimeId = getUsdRunTimeId) (h2 : a.isUsdAttr = true)
    (h3 : b.runTimeId = getUsdRunTimeId) (h4 : b.isUsdAttr = true) :
    createConnection env doc (some a) (some b) = createConnectionCore env doc a b [] := by
  unfold createConnection
  rw [usdAttrFromUfeAttr_ok a h1 h2, usdAttrFromUfeAttr_ok b h3 h4]
  rfl

lemma filter_sockets_createSocket (doc : Doc) (s : Socket) (p : Socket → Bool)
    (h : p s = false) :
    ((createSocket doc s).sockets.filter p) = doc.sockets.filter p := by
  unfold createSocket
  split
  · rfl
  · simp [List.filter_append, List.filter, h]

/-- C5 (amended): a non-null reference whose runtime tag matches and whose
dynamic type is the USD typed-attribute class coerces to the same handle
with no diagnostic; a null reference or one with a foreign runtime tag
coerces to none with a diagnostic; and any operation given a reference
whose coercion fails returns false with no mutation, regardless of the
other argument.  (A matching tag alone does not guarantee success: the
dynamic cast can still fail, see the counterexample.) -/
theorem c5_coercion (env : Env) (doc : Doc) (a : UfeAttr) (x y : Option UfeAttr) :
    (a.runTimeId = getUsdRunTimeId → a.isUsdAttr = true →
      usdAttrFromUfeAttr (some a) = (some a, [])) ∧
    usdAttrFromUfeAttr none = (none, [Diag.invalidAttr]) ∧
    (a.runTimeId ≠ getUsdRunTimeId →
      usdAttrFromUfeAttr (some a) = (none, [Diag.invalidRuntime a.name a.itemPath])) ∧
    ((usdAttrFromUfeAttr x).1 = none →
      (createConnection env doc x y).1 = false ∧ (createConnection env doc x y).2.1 = doc ∧
      (createConnection env doc y x).1 = false ∧ (createConnection env doc y x).2.1 = doc ∧
      (deleteConnection env doc x y).1 = false ∧ (deleteConnection env doc x y).2.1 = doc ∧
      (deleteConnection env doc y x).1 = false ∧ (deleteConnection env doc y x).2.1 = doc) := by
  refine ⟨usdAttrFromUfeAttr_ok a, rfl, ?_, ?_⟩
  · intro hne
    simp [usdAttrFromUfeAttr, hne]
  · intro hx
    obtain ⟨c1a, c1b⟩ := createConnection_failedCoercion env doc x y (Or.inl hx)
    obtain ⟨c2a, c2b⟩ := createConnection_failedCoercion env doc y x (Or.inr hx)
    obtain ⟨d1a, d1b⟩ := deleteConnection_failedCoercion env doc x y (Or.inl hx)
    obtain ⟨d2a, d2b⟩ := deleteConnection_failedCoercion env doc y x (Or.inr hx)
    exact ⟨c1a, c1b, c2a, c2b, d1a, d1b, d2a, d2b⟩

/-- C5 counterexample: a reference whose runtime tag matches the USD
runtime but whose dynamic type is not the USD typed-attribute class fails
coercion, so matching the tag alone does not make coercion succeed as the
claim states. -/
theorem c5_coercion_counterexample :
    castFailAttr.runTimeId = getUsdRunTimeId ∧
    (usdAttrFromUfeAttr (some castFailAttr)).1 = none := by
  decide

/-- C5 witness: coercion succeeds on a well-formed reference, and a
foreign-runtime reference makes createConnection fail with no mutation. -/
theorem c5_coercion_witness :
    usdAttrFromUfeAttr (some srcStdAttr) = (some srcStdAttr, []) ∧
    (createConnection envMdl Doc.empty (some foreignAttr) (some dstStdAttr)).1 = false ∧
    (createConnection envMdl Doc.empty (some foreignAttr) (some dstStdAttr)).2.1 = Doc.empty :=
  ⟨(c5_coercion envMdl Doc.empty srcStdAttr (some foreignAttr) (some dstStdAttr)).1
      (by decide) (by decide),
   ((c5_coercion envMdl Doc.empty srcStdAttr (some foreignAttr) (some dstStdAttr)).2.2.2
      (by decide)).1,
   ((c5_coercion envMdl Doc.empty srcStdAttr (some foreignAttr) (some dstStdAttr)).2.2.2
      (by decide)).2.1⟩

/-- C6: the render context used for a material terminal output equals the
declared source type of the shader definition for every source type except
the legacy glslfx token, which maps to the universal render context; in
particular source type mdl yields render context mdl, which is not the
universal context. -/
theorem c6_renderContext (st : String) :
    (st ≠ "glslfx" → renderContextFor st = st) ∧
    renderContextFor "glslfx" = universalRenderContext ∧
    renderContextFor "mdl" = "mdl" ∧ "mdl" ≠ universalRenderContext := by
  refine ⟨?_, by decide, by decide, by decide⟩
  intro h
  rw [renderContextFor, if_neg h]

/-- C6 witness: the mdl source type passes through unchanged. -/
theorem c6_renderContext_witness : renderContextFor "mdl" = "mdl" :=
  (c6_renderContext "mdl").1 (by decide)

/-- C9: createConnection is not atomic: on a material-terminal destination
with an unregistered source shader identifier, the call returns false yet
has already created the source output socket, which is not rolled back. -/
theorem c9_nonAtomic :
    (createConnection envEmptyReg Doc.empty (some srcSurfaceAttr) (some dstSurfaceAttr)).1
      = false ∧
    Socket.mk "/S" "outputs:surface" "token"
      ∈ (createConnection envEmptyReg Doc.empty
          (some srcSurfaceAttr) (some dstSurfaceAttr)).2.1.sockets ∧
    Doc.empty.sockets = [] := by
  decide

/-- C10: a reference whose scene item carries the matching USD runtime tag
but whose dynamic type is not the USD typed-attribute class coerces to none
with no diagnostic reported, and createConnection and deleteConnection
given such a reference return false with no mutation, in either argument
position. -/
theorem c10_silentCastFail (env : Env) (doc : Doc) (a : UfeAttr) (x : Option UfeAttr)
    (h1 : a.runTimeId = getUsdRunTimeId) (h2 : a.isUsdAttr = false) :
    usdAttrFromUfeAttr (some a) = (none, []) ∧
    (createConnection env doc (some a) x).1 = false ∧
    (createConnection env doc (some a) x).2.1 = doc ∧
    (createConnection env doc x (some a)).1 = false ∧
    (createConnection env doc x (some a)).2.1 = doc ∧
    (deleteConnection env doc (some a) x).1 = false ∧
    (deleteConnection env doc (some a) x).2.1 = doc ∧
    (deleteConnection env doc x (some a)).1 = false ∧
    (deleteConnection env doc x (some a)).2.1 = doc := by
  have hco : usdAttrFromUfeAttr (some a) = (none, []) := by
    simp [usdAttrFromUfeAttr, h1, h2]
  have hn : (usdAttrFromUfeAttr (some a)).1 = none := by rw [hco]
  obtain ⟨c1a, c1b⟩ := createConnection_failedCoercion env doc (some a) x (Or.inl hn)
  obtain ⟨c2a, c2b⟩ := createConnection_failedCoercion env doc x (some a) (Or.inr hn)
  obtain ⟨d1a, d1b⟩ := deleteConnection_failedCoercion env doc (some a) x (Or.inl hn)
  obtain ⟨d2a, d2b⟩ := deleteConnection_failedCoercion env doc x (some a) (Or.inr hn)
  exact ⟨hco, c1a, c1b, c2a, c2b, d1a, d1b, d2a, d2b⟩

/-- C10 witness: the silent cast-failure behavior at a concrete reference
with the matching runtime tag. -/
theorem c10_silentCastFail_witness :
    usdAttrFromUfeAttr (some castFailAttr) = (none, []) ∧
    (createConnection envMdl Doc.empty (some castFailAttr) (some dstStdAttr)).1 = false ∧
    (createConnection envMdl Doc.empty (some castFailAttr) (some dstStdAttr)).2.1 = Doc.empty ∧
    (createConnection envMdl Doc.empty (some dstStdAttr) (some castFailAttr)).1 = false ∧
    (createConnection envMdl Doc.empty (some dstStdAttr) (some castFailAttr)).2.1 = Doc.empty ∧
    (deleteConnection envMdl Doc.empty (some castFailAttr) (some dstStdAttr)).1 = false ∧
    (deleteConnection envMdl Doc.empty (some castFailAttr) (some dstStdAttr)).2.1 = Doc.empty ∧
    (deleteConnection envMdl Doc.empty (some dstStdAttr) (some castFailAttr)).1 = false ∧
    (deleteConnection envMdl Doc.empty (some dstStdAttr) (some castFailAttr)).2.1 = Doc.empty :=
  c10_silentCastFail envMdl Doc.empty castFailAttr (some dstStdAttr) (by decide) (by decide)

end UsdConnection

namespace UsdConnection

/-- C7: when both attributes are Outputs, the destination is a material
terminal (surface, volume or displacement base name on a material prim),
and the stored shader identifier of the source prim is not registered,
createConnection reports the unresolved-shader diagnostic, returns false,
and creates no socket on the material prim (its socket set and the
connection state are unchanged). -/
theorem c7_unregisteredShader (env : Env) (doc : Doc) (a b : UfeAttr)
    (h1 : a.runTimeId = getUsdRunTimeId) (h2 : a.isUsdAttr = true)
    (h3 : b.runTimeId = getUsdRunTimeId) (h4 : b.isUsdAttr = true)
    (hc : isConnected doc a b = false)
    (hsa : (getBaseNameAndType a.name).2 = ShadeAttrType.Output)
    (hsd : (getBaseNameAndType b.name).2 = ShadeAttrType.Output)
    (hM : b.prim.isMaterial = true)
    (hTerm : isTerminalBase (getBaseNameAndType b.name).1 = true)
    (hL : env.registry.getShaderNodeByIdentifier a.prim.shaderId = none)
    (hNe : a.prim.path ≠ b.prim.path) :
    (createConnection env doc (some a) (some b)).1 = false ∧
    Diag.unresolvedShader a.prim.shaderId a.itemPath
      ∈ (createConnection env doc (some a) (some b)).2.2 ∧
    ((createConnection env doc (some a) (some b)).2.1).sockets.filter
        (fun s => s.primPath == b.prim.path)
      = doc.sockets.filter (fun s => s.primPath == b.prim.path) ∧
    ((createConnection env doc (some a) (some b)).2.1).connections = doc.connections := by
  have hc2 : ¬ isConnected doc a b = true := by
    rw [hc]
    simp
  have hMT : (b.prim.isMaterial && isTerminalBase (getBaseNameAndType b.name).1) = true := by
    rw [hM, hTerm]
    rfl
  rw [createConnection_eq_core env doc a b h1 h2 h3 h4]
  simp only [createConnectionCore, hc2, hsa, hsd, reduceIte, hMT, hL]
  refine ⟨rfl, by simp, ?_, ?_⟩
  · apply filter_sockets_createSocket
    simp [hNe]
  · exact connections_createSocket doc _

/-- C7 witness: the unregistered-shader failure at a concrete material
terminal connection with an empty registry. -/
theorem c7_unregisteredShader_witness :
    (createConnection envEmptyReg Doc.empty (some srcSurfaceAttr) (some dstSurfaceAttr)).1
      = false ∧
    Diag.unresolvedShader srcSurfaceAttr.prim.shaderId srcSurfaceAttr.itemPath
      ∈ (createConnection envEmptyReg Doc.empty (some srcSurfaceAttr) (some dstSurfaceAttr)).2.2 ∧
    ((createConnection envEmptyReg Doc.empty
        (some srcSurfaceAttr) (some dstSurfaceAttr)).2.1).sockets.filter
        (fun s => s.primPath == dstSurfaceAttr.prim.path)
      = Doc.empty.sockets.filter (fun s => s.primPath == dstSurfaceAttr.prim.path) ∧
    ((createConnection envEmptyReg Doc.empty
        (some srcSurfaceAttr) (some dstSurfaceAttr)).2.1).connections
      = Doc.empty.connections :=
  c7_unregisteredShader envEmptyReg Doc.empty srcSurfaceAttr dstSurfaceAttr
    (by decide) (by decide) (by decide) (by decide) (by decide) (by decide) (by decide)
    (by decide) (by decide) (by decide) (by decide)

/-- C8: once both coercions succeed, the pair is not already connected, and
the terminal-branch registry lookup (when that branch is taken) succeeds,
the Boolean returned by createConnection is exactly the verdict of the
single underlying connect-to-source operation for the socket paths of the
(source direction, destination direction) case; no other return path is
reachable. -/
theorem c8_connectVerdict (env : Env) (doc : Doc) (a b : UfeAttr) (p q : String)
    (h1 : a.runTimeId = getUsdRunTimeId) (h2 : a.isUsdAttr = true)
    (h3 : b.runTimeId = getUsdRunTimeId) (h4 : b.isUsdAttr = true)
    (hc : isConnected doc a b = false)
    (hargs : connectArgsFor env a b = some (p, q)) :
    (createConnection env doc (some a) (some b)).1 = env.connectOk p q := by
  have hc2 : ¬ isConnected doc a b = true := by
    rw [hc]
    simp
  rw [createConnection_eq_core env doc a b h1 h2 h3 h4]
  by_cases hS : (getBaseNameAndType a.name).2 = ShadeAttrType.Input <;>
    by_cases hD : (getBaseNameAndType b.name).2 = ShadeAttrType.Input
  · simp only [createConnectionCore, connectArgsFor, hc2, hS, hD, reduceIte,
      Option.some.injEq, Prod.mk.injEq] at hargs ⊢
    obtain ⟨hp, hq⟩ := hargs
    subst hp
    subst hq
    exact connectToSource_fst env _ _ _
  · simp only [createConnectionCore, connectArgsFor, hc2, hS, hD, reduceIte,
      Option.some.injEq, Prod.mk.injEq] at hargs ⊢
    obtain ⟨hp, hq⟩ := hargs
    subst hp
    subst hq
    exact connectToSource_fst env _ _ _
  · simp only [createConnectionCore, connectArgsFor, hc2, hS, hD, reduceIte,
      Option.some.injEq, Prod.mk.injEq] at hargs ⊢
    obtain ⟨hp, hq⟩ := hargs
    subst hp
    subst hq
    exact connectToSource_fst env _ _ _
  · by_cases hM : (b.prim.isMaterial && isTerminalBase (getBaseNameAndType b.name).1) = true
    · rcases hL : env.registry.getShaderNodeByIdentifier a.prim.shaderId with _ | d
      · simp only [createConnectionCore, connectArgsFor, hc2, hS, hD, reduceIte, hM, hL]
          at hargs
        simp at hargs
      · simp only [createConnectionCore, connectArgsFor, hc2, hS, hD, reduceIte, hM, hL,
          Option.some.injEq, Prod.mk.injEq] at hargs ⊢
        obtain ⟨hp, hq⟩ := hargs
        subst hp
        subst hq
        exact connectToSource_fst env _ _ _
    · simp only [createConnectionCore, connectArgsFor, hc2, hS, hD, reduceIte, hM,
        Bool.false_eq_true, if_false, Option.some.injEq, Prod.mk.injEq] at hargs ⊢
      obtain ⟨hp, hq⟩ := hargs
      subst hp
      subst hq
      exact connectToSource_fst env _ _ _

/-- C8 witness: at a concrete standard connection the returned Boolean is
the connect verdict for the computed socket paths. -/
theorem c8_connectVerdict_witness :
    (createConnection envMdl Doc.empty (some srcStdAttr) (some dstStdAttr)).1
      = envMdl.connectOk "/M.inputs:value" "/S.outputs:result" :=
  c8_connectVerdict envMdl Doc.empty srcStdAttr dstStdAttr
    "/M.inputs:value" "/S.outputs:result"
    (by decide) (by decide) (by decide) (by decide) (by decide) (by decide)

end UsdConnection
